import Mathlib

/-!
Verification of the `AI` facade class in `src/index.ts` of `ai-core`.

The facade is shallow-embedded as pure Lean functions.  All external
collaborators (the wrapped AI SDK's `generateText`, `streamText`,
`generateObject`, `streamObject`, Node's `fs.readFileSync`, and the `URL`
constructor) are modelled as an explicit environment `Env` of oracles that
either return a result (`Except.ok`) or throw a fault (`Except.error`,
carrying the fault's `String(err)` image, except for `fs` faults which are
always Node `Error` objects and are modelled as such).

Each facade method is embedded as a function of the environment, the facade
state, and the method arguments, returning a pair of
  - a `JsOutcome`: either a normal return (`ret`) of the method's declared
    response object, or an uncaught exception (`thrown`) — the embedding of
    the TypeScript `try`/`catch` structure shows which one the code produces;
  - the ordered list of calls the method made to the external collaborators
    (an `Event` trace), used to state "the provider was never invoked" /
    "no file was read".

In a returned response object, a field of type `Option α` is `none` exactly
when the corresponding key is absent from the object literal the TypeScript
method returns, and `some v` when the key is assigned value `v`.  The
`reasoning` field of a text response is special: the SDK may supply
`undefined` for it, and the success literal still assigns the key, so it is
modelled as `Option (Option String)` — outer `some` = key assigned in the
literal, inner `Option` = the (possibly undefined) value.
-/

namespace AICore

/-- `LanguageModelUsage` from the `ai` SDK: token accounting. -/
structure LanguageModelUsage where
  promptTokens : Nat
  completionTokens : Nat
  totalTokens : Nat
deriving DecidableEq, Repr

/-- Message roles of `CoreMessage`. -/
inductive Role where
  | system
  | user
  | assistant
deriving DecidableEq, Repr

/-- A successfully constructed WHATWG `URL` object, identified by its href. -/
structure URLObj where
  href : String
deriving DecidableEq, Repr

/-- A typed content part of a message, as consumed by the SDK. -/
inductive ContentPart where
  | textPart (s : String)
  | imagePart (data : List Nat)
  | imageUrlPart (u : URLObj)
  | filePart (data : List Nat) (mimeType : String)
deriving DecidableEq, Repr

/-- Message content: plain text or an ordered list of typed parts. -/
inductive MessageContent where
  | str (s : String)
  | parts (ps : List ContentPart)
deriving DecidableEq, Repr

/-- `CoreMessage`: one conversation turn. -/
structure CoreMessage where
  role : Role
  content : MessageContent
deriving DecidableEq, Repr

/-- A JavaScript value, for the untyped `object : any` payload of
`generateObject`.  The facade never inspects it, so only enough structure to
distinguish values is modelled. -/
inductive JsValue where
  | und
  | boolVal (b : Bool)
  | numVal (n : Int)
  | strVal (s : String)
  | rawVal (id : Nat)
deriving DecidableEq, Repr

/-- A caller-supplied zod schema, opaque to the facade (passed through). -/
structure Schema where
  id : Nat
deriving DecidableEq, Repr

/-- An async text/partial-object stream handle, opaque to the facade. -/
structure StreamHandle where
  id : Nat
deriving DecidableEq, Repr

/-- The promise of the final reasoning string, opaque to the facade. -/
structure RPromise where
  id : Nat
deriving DecidableEq, Repr

/-- The resolved model handle: `wrapLanguageModel` around `groq(modelName)`
with the reasoning-extraction middleware for tag "think". -/
structure LanguageModel where
  provider : String
  modelName : String
  apiKey : String
  reasoningTag : String
deriving DecidableEq, Repr

/-- `AI.initializeAIModel`: dispatch on the provider name; only "groq"
resolves a model, every other name leaves the handle unset. -/
def initializeAIModel (provider modelName apiKey : String) : Option LanguageModel :=
  match provider with
  | "groq" =>
      some { provider := "groq", modelName := modelName, apiKey := apiKey,
             reasoningTag := "think" }
  | _ => none

/-- The facade state after construction. -/
structure AI where
  provider : String
  apiKey : String
  modelName : String
  model : Option LanguageModel
deriving Repr

/-- The `AI` constructor. -/
def AI.make (provider modelName apiKey : String) : AI :=
  { provider := provider, apiKey := apiKey, modelName := modelName,
    model := initializeAIModel provider modelName apiKey }

/-- Result of a successful SDK `generateText` call, as destructured. -/
structure GenTextResult where
  text : String
  reasoning : Option String
  usage : LanguageModelUsage
deriving DecidableEq, Repr

/-- Result of a successful SDK `streamText` call, as destructured. -/
structure StreamTextResult where
  textStream : StreamHandle
  reasoning : RPromise
deriving DecidableEq, Repr

/-- Result of a successful SDK `generateObject` call, as destructured. -/
structure GenObjectResult where
  object : JsValue
  usage : LanguageModelUsage
deriving DecidableEq, Repr

/-- Result of a successful SDK `streamObject` call, as destructured. -/
structure StreamObjectResult where
  partialObjectStream : StreamHandle
deriving DecidableEq, Repr

/-- The output constraint passed to `generateObject`: either a zod schema or
(`output: "enum"`) a list of admissible enum strings. -/
inductive ObjectSpec where
  | bySchema (s : Schema)
  | byEnum (categories : List String)
deriving DecidableEq, Repr

/-- A Node `fs` fault: `fs.readFileSync` throws `Error` instances. -/
structure FsError where
  message : String
deriving DecidableEq, Repr

/-- `String(err)` for a Node `Error` named "Error": `"Error: <message>"`,
or just `"Error"` when the message is empty.  Never the empty string. -/
def FsError.toStringJs (e : FsError) : String :=
  if e.message = "" then "Error" else "Error: " ++ e.message

/-- The environment of external collaborators.  Provider faults are carried
as the `String(err)` image of the thrown value (which, for an arbitrary
thrown JavaScript value, can be any string, the empty one included). -/
structure Env where
  generateText : LanguageModel → List CoreMessage → Except String GenTextResult
  streamText : LanguageModel → List CoreMessage → Except String StreamTextResult
  generateObject : LanguageModel → List CoreMessage → ObjectSpec → Except String GenObjectResult
  streamObject : LanguageModel → List CoreMessage → Schema → Except String StreamObjectResult
  readFileSync : String → Except FsError (List Nat)
  newURL : String → Except String URLObj

/-- One observable call to an external collaborator. -/
inductive Event where
  | genTextCall (model : LanguageModel) (messages : List CoreMessage)
  | streamTextCall (model : LanguageModel) (messages : List CoreMessage) (smooth : Bool)
  | genObjectCall (model : LanguageModel) (messages : List CoreMessage) (spec : ObjectSpec)
  | streamObjectCall (model : LanguageModel) (messages : List CoreMessage) (schema : Schema)
  | fileReadCall (path : String)
  | newURLCall (s : String)
deriving DecidableEq, Repr

/-- Is the event a call into the inference provider (the wrapped SDK)? -/
def Event.isProviderCall : Event → Bool
  | .genTextCall _ _ => true
  | .streamTextCall _ _ _ => true
  | .genObjectCall _ _ _ => true
  | .streamObjectCall _ _ _ => true
  | _ => false

/-- Is the event a local file read? -/
def Event.isFileRead : Event → Bool
  | .fileReadCall _ => true
  | _ => false

/-- How a facade method finishes: a normal return of its response object, or
an uncaught exception propagating to the caller. -/
inductive JsOutcome (α : Type) where
  | ret (a : α)
  | thrown (fault : String)
deriving DecidableEq, Repr

/-- `AITextResponse`.  `none` = key absent from the returned literal. -/
structure AITextResponse where
  success : Bool
  text : Option String := none
  reasoning : Option (Option String) := none
  usage : Option LanguageModelUsage := none
  error : Option String := none
deriving DecidableEq, Repr

/-- `AITextStreamResponse`. -/
structure AITextStreamResponse where
  success : Bool
  textStream : Option StreamHandle := none
  reasoning : Option RPromise := none
  error : Option String := none
deriving DecidableEq, Repr

/-- `AIObjectResponse`. -/
structure AIObjectResponse where
  success : Bool
  object : Option JsValue := none
  usage : Option LanguageModelUsage := none
  error : Option String := none
deriving DecidableEq, Repr

/-- `AIObjectStreamResponse`. -/
structure AIObjectStreamResponse where
  success : Bool
  partialObjectStream : Option StreamHandle := none
  error : Option String := none
deriving DecidableEq, Repr

/-- `AI.chat`. -/
def AI.chat (env : Env) (a : AI) (messages : List CoreMessage) :
    JsOutcome AITextResponse × List Event :=
  match a.model with
  | none => (.ret { success := false, error := some "ai model not set" }, [])
  | some m =>
    match env.generateText m messages with
    | .ok r =>
        (.ret { success := true, text := some r.text, reasoning := some r.reasoning,
                usage := some r.usage }, [.genTextCall m messages])
    | .error e =>
        (.ret { success := false, error := some e }, [.genTextCall m messages])

/-- `AI.streamChat` (the `smoothStream()` transform is recorded in the
event). -/
def AI.streamChat (env : Env) (a : AI) (messages : List CoreMessage) :
    JsOutcome AITextStreamResponse × List Event :=
  match a.model with
  | none => (.ret { success := false, error := some "ai model not set" }, [])
  | some m =>
    match env.streamText m messages with
    | .ok r =>
        (.ret { success := true, textStream := some r.textStream,
                reasoning := some r.reasoning }, [.streamTextCall m messages true])
    | .error e =>
        (.ret { success := false, error := some e }, [.streamTextCall m messages true])

/-- `AI.createObject`. -/
def AI.createObject (env : Env) (a : AI) (messages : List CoreMessage) (schema : Schema) :
    JsOutcome AIObjectResponse × List Event :=
  match a.model with
  | none => (.ret { success := false, error := some "ai model not set" }, [])
  | some m =>
    match env.generateObject m messages (.bySchema schema) with
    | .ok r =>
        (.ret { success := true, object := some r.object, usage := some r.usage },
         [.genObjectCall m messages (.bySchema schema)])
    | .error e =>
        (.ret { success := false, error := some e },
         [.genObjectCall m messages (.bySchema schema)])

/-- `AI.streamCreateObject`. -/
def AI.streamCreateObject (env : Env) (a : AI) (messages : List CoreMessage) (schema : Schema) :
    JsOutcome AIObjectStreamResponse × List Event :=
  match a.model with
  | none => (.ret { success := false, error := some "ai model not set" }, [])
  | some m =>
    match env.streamObject m messages schema with
    | .ok r =>
        (.ret { success := true, partialObjectStream := some r.partialObjectStream },
         [.streamObjectCall m messages schema])
    | .error e =>
        (.ret { success := false, error := some e },
         [.streamObjectCall m messages schema])

/-- `AI.classifyText`: `generateObject` with `output: "enum"` over the
caller's category strings. -/
def AI.classifyText (env : Env) (a : AI) (messages : List CoreMessage) (categories : List String) :
    JsOutcome AIObjectResponse × List Event :=
  match a.model with
  | none => (.ret { success := false, error := some "ai model not set" }, [])
  | some m =>
    match env.generateObject m messages (.byEnum categories) with
    | .ok r =>
        (.ret { success := true, object := some r.object, usage := some r.usage },
         [.genObjectCall m messages (.byEnum categories)])
    | .error e =>
        (.ret { success := false, error := some e },
         [.genObjectCall m messages (.byEnum categories)])

/-- `AI.chatWithImageFilePath`: blocking file read inside the `try`, then
`generateText` on the caller's messages plus one appended user message with a
single image-bytes part. -/
def AI.chatWithImageFilePath (env : Env) (a : AI) (messages : List CoreMessage)
    (imageFilePath : String) : JsOutcome AITextResponse × List Event :=
  match a.model with
  | none => (.ret { success := false, error := some "ai model not set" }, [])
  | some m =>
    match env.readFileSync imageFilePath with
    | .error e =>
        (.ret { success := false, error := some e.toStringJs },
         [.fileReadCall imageFilePath])
    | .ok imageAsUint8Array =>
      let msgs := messages ++
        [{ role := .user, content := .parts [.imagePart imageAsUint8Array] }]
      match env.generateText m msgs with
      | .ok r =>
          (.ret { success := true, text := some r.text, reasoning := some r.reasoning,
                  usage := some r.usage },
           [.fileReadCall imageFilePath, .genTextCall m msgs])
      | .error e =>
          (.ret { success := false, error := some e },
           [.fileReadCall imageFilePath, .genTextCall m msgs])

/-- `AI.chatWithImageURL`: `new URL(imageURL)` is evaluated inside the `try`
while building the appended message, before `generateText` is invoked. -/
def AI.chatWithImageURL (env : Env) (a : AI) (messages : List CoreMessage)
    (imageURL : String) : JsOutcome AITextResponse × List Event :=
  match a.model with
  | none => (.ret { success := false, error := some "ai model not set" }, [])
  | some m =>
    match env.newURL imageURL with
    | .error e =>
        (.ret { success := false, error := some e }, [.newURLCall imageURL])
    | .ok u =>
      let msgs := messages ++
        [{ role := .user, content := .parts [.imageUrlPart u] }]
      match env.generateText m msgs with
      | .ok r =>
          (.ret { success := true, text := some r.text, reasoning := some r.reasoning,
                  usage := some r.usage },
           [.newURLCall imageURL, .genTextCall m msgs])
      | .error e =>
          (.ret { success := false, error := some e },
           [.newURLCall imageURL, .genTextCall m msgs])

/-- `AI.chatWithFile`. -/
def AI.chatWithFile (env : Env) (a : AI) (messages : List CoreMessage)
    (filePath : String) (mimeType : String) : JsOutcome AITextResponse × List Event :=
  match a.model with
  | none => (.ret { success := false, error := some "ai model not set" }, [])
  | some m =>
    match env.readFileSync filePath with
    | .error e =>
        (.ret { success := false, error := some e.toStringJs }, [.fileReadCall filePath])
    | .ok fileAsUint8Array =>
      let msgs := messages ++
        [{ role := .user, content := .parts [.filePart fileAsUint8Array mimeType] }]
      match env.generateText m msgs with
      | .ok r =>
          (.ret { success := true, text := some r.text, reasoning := some r.reasoning,
                  usage := some r.usage },
           [.fileReadCall filePath, .genTextCall m msgs])
      | .error e =>
          (.ret { success := false, error := some e },
           [.fileReadCall filePath, .genTextCall m msgs])

/-- `AI.extractDataFromFile`. -/
def AI.extractDataFromFile (env : Env) (a : AI) (messages : List CoreMessage)
    (schema : Schema) (filePath : String) (mimeType : String) :
    JsOutcome AIObjectResponse × List Event :=
  match a.model with
  | none => (.ret { success := false, error := some "ai model not set" }, [])
  | some m =>
    match env.readFileSync filePath with
    | .error e =>
        (.ret { success := false, error := some e.toStringJs }, [.fileReadCall filePath])
    | .ok fileAsUint8Array =>
      let msgs := messages ++
        [{ role := .user, content := .parts [.filePart fileAsUint8Array mimeType] }]
      match env.generateObject m msgs (.bySchema schema) with
      | .ok r =>
          (.ret { success := true, object := some r.object, usage := some r.usage },
           [.fileReadCall filePath, .genObjectCall m msgs (.bySchema schema)])
      | .error e =>
          (.ret { success := false, error := some e },
           [.fileReadCall filePath, .genObjectCall m msgs (.bySchema schema)])

/-! ### Sample collaborators and inputs, used to witness the theorems -/

/-- A concrete usage record. -/
def okUsage : LanguageModelUsage := ⟨3, 5, 8⟩

/-- An environment where every collaborator succeeds. -/
def okEnv : Env where
  generateText := fun _ _ => .ok { text := "pong", reasoning := some "thought", usage := okUsage }
  streamText := fun _ _ => .ok { textStream := ⟨1⟩, reasoning := ⟨2⟩ }
  generateObject := fun _ _ spec =>
    match spec with
    | .byEnum cats => .ok { object := .strVal (cats.headD "a"), usage := okUsage }
    | .bySchema _ => .ok { object := .rawVal 7, usage := okUsage }
  streamObject := fun _ _ _ => .ok { partialObjectStream := ⟨3⟩ }
  readFileSync := fun _ => .ok [104, 105]
  newURL := fun s => .ok ⟨s⟩

/-- An environment where every provider call throws an `APICallError`, while
local file reads and URL construction succeed. -/
def provFailEnv : Env where
  generateText := fun _ _ => .error "APICallError: boom"
  streamText := fun _ _ => .error "APICallError: boom"
  generateObject := fun _ _ _ => .error "APICallError: boom"
  streamObject := fun _ _ _ => .error "APICallError: boom"
  readFileSync := fun _ => .ok [104, 105]
  newURL := fun s => .ok ⟨s⟩

/-- A degenerate but legal JavaScript environment: the provider call throws a
value whose `String` image is the empty string (e.g. `throw ""`). -/
def emptyFaultEnv : Env :=
  { provFailEnv with generateText := fun _ _ => .error "" }

/-- An environment where local I/O fails: `fs.readFileSync` throws `ENOENT`
and `new URL` throws a `TypeError`. -/
def ioFailEnv : Env :=
  { okEnv with
    readFileSync := fun _ => .error ⟨"ENOENT: no such file or directory"⟩,
    newURL := fun _ => .error "TypeError: Invalid URL" }

/-- The model handle `initializeAIModel` resolves for provider "groq". -/
def groqModel : LanguageModel := ⟨"groq", "llama", "key", "think"⟩

/-- A facade constructed with the recognized provider "groq". -/
def groqAI : AI := AI.make "groq" "llama" "key"

/-- A one-message conversation. -/
def sampleMessages : List CoreMessage := [⟨.user, .str "hi"⟩]

/-! ### Claims -/

/-- On any provider name other than "groq", `initializeAIModel` resolves no
model. -/
theorem initializeAIModel_ne_groq (provider modelName apiKey : String)
    (h : provider ≠ "groq") : initializeAIModel provider modelName apiKey = none := by
  unfold initializeAIModel
  split
  · exact absurd rfl h
  · rfl

/-- C1: each of the nine facade methods, called on a facade constructed with
a provider name other than "groq" (so no model handle was resolved), returns
`{success := false, error := "ai model not set"}` normally, with an empty
collaborator trace — the inference provider is never invoked and no local
file is read. -/
theorem unconfigured_provider_rejects_all_methods (env : Env)
    (provider modelName apiKey : String) (a : AI)
    (messages : List CoreMessage) (schema : Schema) (categories : List String)
    (imageFilePath imageURL filePath mimeType : String)
    (ha : a = AI.make provider modelName apiKey) (h : provider ≠ "groq") :
    AI.chat env a messages = (.ret { success := false, error := some "ai model not set" }, [])
    ∧ AI.streamChat env a messages = (.ret { success := false, error := some "ai model not set" }, [])
    ∧ AI.createObject env a messages schema = (.ret { success := false, error := some "ai model not set" }, [])
    ∧ AI.streamCreateObject env a messages schema = (.ret { success := false, error := some "ai model not set" }, [])
    ∧ AI.classifyText env a messages categories = (.ret { success := false, error := some "ai model not set" }, [])
    ∧ AI.chatWithImageFilePath env a messages imageFilePath = (.ret { success := false, error := some "ai model not set" }, [])
    ∧ AI.chatWithImageURL env a messages imageURL = (.ret { success := false, error := some "ai model not set" }, [])
    ∧ AI.chatWithFile env a messages filePath mimeType = (.ret { success := false, error := some "ai model not set" }, [])
    ∧ AI.extractDataFromFile env a messages schema filePath mimeType = (.ret { success := false, error := some "ai model not set" }, []) := by
  have hm : a.model = none := by
    subst ha
    exact initializeAIModel_ne_groq provider modelName apiKey h
  refine ⟨?_, ?_, ?_, ?_, ?_, ?_, ?_, ?_, ?_⟩ <;>
    simp [AI.chat, AI.streamChat, AI.createObject, AI.streamCreateObject,
      AI.classifyText, AI.chatWithImageFilePath, AI.chatWithImageURL,
      AI.chatWithFile, AI.extractDataFromFile, hm]

/-- C1 witness: a concrete facade built with provider "openai". -/
theorem unconfigured_provider_rejects_all_methods_witness :
    ("openai" : String) ≠ "groq" ∧
      AI.chat okEnv (AI.make "openai" "llama" "key") sampleMessages =
        (.ret { success := false, error := some "ai model not set" }, []) :=
  ⟨by decide,
    (unconfigured_provider_rejects_all_methods okEnv "openai" "llama" "key"
      (AI.make "openai" "llama" "key") sampleMessages ⟨0⟩ ["a"] "img.png"
      "https://x" "doc.pdf" "application/pdf" rfl (by decide)).1⟩

/-- C2 counterexample: the facade's conversion of a provider fault is
`String(err)`, which for a thrown value whose string image is empty (such as
`throw ""`) yields `error = ""` — not a non-empty string.  The method still
returns `{success := false, error := ""}` normally. -/
theorem fault_string_empty_counterexample :
    (AI.chat emptyFaultEnv (AI.make "groq" "llama" "key") sampleMessages).1 =
      .ret { success := false, error := some "" } ∧ ("" : String).length = 0 := by
  exact ⟨rfl, rfl⟩

/-- C2 (amended): for each of the nine facade methods, a fault thrown by the
underlying provider call is caught at the method boundary and converted to
`{success := false, error := String(fault)}` with no payload key assigned;
the outcome is a normal return (`JsOutcome.ret`), never a propagated
exception.  The error string equals the fault's `String` image, hence is
non-empty whenever that image is (e.g. for every thrown `Error` object). -/
theorem facade_converts_provider_faults (env : Env) (a : AI) (m : LanguageModel)
    (messages : List CoreMessage) (schema : Schema) (categories : List String)
    (imageFilePath imageURL filePath mimeType : String)
    (ibytes fbytes : List Nat) (u : URLObj)
    (f1 f2 f3 f4 f5 f6 f7 f8 f9 : String)
    (hm : a.model = some m)
    (h1 : env.generateText m messages = .error f1)
    (h2 : env.streamText m messages = .error f2)
    (h3 : env.generateObject m messages (.bySchema schema) = .error f3)
    (h4 : env.streamObject m messages schema = .error f4)
    (h5 : env.generateObject m messages (.byEnum categories) = .error f5)
    (h6i : env.readFileSync imageFilePath = .ok ibytes)
    (h6 : env.generateText m (messages ++ [{ role := .user, content := .parts [.imagePart ibytes] }]) = .error f6)
    (h7u : env.newURL imageURL = .ok u)
    (h7 : env.generateText m (messages ++ [{ role := .user, content := .parts [.imageUrlPart u] }]) = .error f7)
    (h8f : env.readFileSync filePath = .ok fbytes)
    (h8 : env.generateText m (messages ++ [{ role := .user, content := .parts [.filePart fbytes mimeType] }]) = .error f8)
    (h9 : env.generateObject m (messages ++ [{ role := .user, content := .parts [.filePart fbytes mimeType] }]) (.bySchema schema) = .error f9) :
    AI.chat env a messages =
      (.ret { success := false, error := some f1 }, [.genTextCall m messages])
    ∧ AI.streamChat env a messages =
      (.ret { success := false, error := some f2 }, [.streamTextCall m messages true])
    ∧ AI.createObject env a messages schema =
      (.ret { success := false, error := some f3 }, [.genObjectCall m messages (.bySchema schema)])
    ∧ AI.streamCreateObject env a messages schema =
      (.ret { success := false, error := some f4 }, [.streamObjectCall m messages schema])
    ∧ AI.classifyText env a messages categories =
      (.ret { success := false, error := some f5 }, [.genObjectCall m messages (.byEnum categories)])
    ∧ AI.chatWithImageFilePath env a messages imageFilePath =
      (.ret { success := false, error := some f6 },
       [.fileReadCall imageFilePath,
        .genTextCall m (messages ++ [{ role := .user, content := .parts [.imagePart ibytes] }])])
    ∧ AI.chatWithImageURL env a messages imageURL =
      (.ret { success := false, error := some f7 },
       [.newURLCall imageURL,
        .genTextCall m (messages ++ [{ role := .user, content := .parts [.imageUrlPart u] }])])
    ∧ AI.chatWithFile env a messages filePath mimeType =
      (.ret { success := false, error := some f8 },
       [.fileReadCall filePath,
        .genTextCall m (messages ++ [{ role := .user, content := .parts [.filePart fbytes mimeType] }])])
    ∧ AI.extractDataFromFile env a messages schema filePath mimeType =
      (.ret { success := false, error := some f9 },
       [.fileReadCall filePath,
        .genObjectCall m (messages ++ [{ role := .user, content := .parts [.filePart fbytes mimeType] }]) (.bySchema schema)]) := by
  refine ⟨?_, ?_, ?_, ?_, ?_, ?_, ?_, ?_, ?_⟩ <;>
    simp [AI.chat, AI.streamChat, AI.createObject, AI.streamCreateObject,
      AI.classifyText, AI.chatWithImageFilePath, AI.chatWithImageURL,
      AI.chatWithFile, AI.extractDataFromFile, hm, h1, h2, h3, h4, h5,
      h6i, h6, h7u, h7, h8f, h8, h9]

/-- C2 witness: the fault-throwing environment `provFailEnv` exercises the
chat conjunct of the fault-conversion theorem. -/
theorem facade_converts_provider_faults_witness :
    AI.chat provFailEnv groqAI sampleMessages =
      (.ret { success := false, error := some "APICallError: boom" },
       [.genTextCall groqModel sampleMessages]) :=
  (facade_converts_provider_faults provFailEnv groqAI groqModel sampleMessages
    ⟨0⟩ ["a"] "img.png" "https://x" "doc.pdf" "application/pdf"
    [104, 105] [104, 105] ⟨"https://x"⟩
    "APICallError: boom" "APICallError: boom" "APICallError: boom"
    "APICallError: boom" "APICallError: boom" "APICallError: boom"
    "APICallError: boom" "APICallError: boom" "APICallError: boom"
    rfl rfl rfl rfl rfl rfl rfl rfl rfl rfl rfl rfl rfl).1

/-- The two admissible shapes of an `AITextResponse`: success with every
payload key assigned and no error key, or failure with the error key
assigned and no payload key.  The disjuncts are mutually exclusive: they
disagree on `success`. -/
def textShape (r : AITextResponse) : Prop :=
  (r.success = true ∧ r.error = none ∧ r.text ≠ none ∧ r.reasoning ≠ none ∧ r.usage ≠ none)
  ∨ (r.success = false ∧ r.error ≠ none ∧ r.text = none ∧ r.reasoning = none ∧ r.usage = none)

/-- The two admissible shapes of an `AITextStreamResponse`. -/
def textStreamShape (r : AITextStreamResponse) : Prop :=
  (r.success = true ∧ r.error = none ∧ r.textStream ≠ none ∧ r.reasoning ≠ none)
  ∨ (r.success = false ∧ r.error ≠ none ∧ r.textStream = none ∧ r.reasoning = none)

/-- The two admissible shapes of an `AIObjectResponse`. -/
def objectShape (r : AIObjectResponse) : Prop :=
  (r.success = true ∧ r.error = none ∧ r.object ≠ none ∧ r.usage ≠ none)
  ∨ (r.success = false ∧ r.error ≠ none ∧ r.object = none ∧ r.usage = none)

/-- The two admissible shapes of an `AIObjectStreamResponse`. -/
def objectStreamShape (r : AIObjectStreamResponse) : Prop :=
  (r.success = true ∧ r.error = none ∧ r.partialObjectStream ≠ none)
  ∨ (r.success = false ∧ r.error ≠ none ∧ r.partialObjectStream = none)

/-- `chat` always returns normally with a well-shaped response. -/
theorem chat_shape (env : Env) (a : AI) (messages : List CoreMessage) :
    ∃ r, (AI.chat env a messages).1 = .ret r ∧ textShape r := by
  cases hm : a.model with
  | none =>
      exact ⟨{ success := false, error := some "ai model not set" },
        by simp [AI.chat, hm], by simp [textShape]⟩
  | some m =>
      cases hg : env.generateText m messages with
      | ok r =>
          exact ⟨{ success := true, text := some r.text, reasoning := some r.reasoning,
                   usage := some r.usage }, by simp [AI.chat, hm, hg], by simp [textShape]⟩
      | error e =>
          exact ⟨{ success := false, error := some e },
            by simp [AI.chat, hm, hg], by simp [textShape]⟩

/-- `streamChat` always returns normally with a well-shaped response. -/
theorem streamChat_shape (env : Env) (a : AI) (messages : List CoreMessage) :
    ∃ r, (AI.streamChat env a messages).1 = .ret r ∧ textStreamShape r := by
  cases hm : a.model with
  | none =>
      exact ⟨{ success := false, error := some "ai model not set" },
        by simp [AI.streamChat, hm], by simp [textStreamShape]⟩
  | some m =>
      cases hg : env.streamText m messages with
      | ok r =>
          exact ⟨{ success := true, textStream := some r.textStream,
                   reasoning := some r.reasoning },
            by simp [AI.streamChat, hm, hg], by simp [textStreamShape]⟩
      | error e =>
          exact ⟨{ success := false, error := some e },
            by simp [AI.streamChat, hm, hg], by simp [textStreamShape]⟩

/-- `createObject` always returns normally with a well-shaped response. -/
theorem createObject_shape (env : Env) (a : AI) (messages : List CoreMessage)
    (schema : Schema) :
    ∃ r, (AI.createObject env a messages schema).1 = .ret r ∧ objectShape r := by
  cases hm : a.model with
  | none =>
      exact ⟨{ success := false, error := some "ai model not set" },
        by simp [AI.createObject, hm], by simp [objectShape]⟩
  | some m =>
      cases hg : env.generateObject m messages (.bySchema schema) with
      | ok r =>
          exact ⟨{ success := true, object := some r.object, usage := some r.usage },
            by simp [AI.createObject, hm, hg], by simp [objectShape]⟩
      | error e =>
          exact ⟨{ success := false, error := some e },
            by simp [AI.createObject, hm, hg], by simp [objectShape]⟩

/-- `streamCreateObject` always returns normally with a well-shaped
response. -/
theorem streamCreateObject_shape (env : Env) (a : AI) (messages : List CoreMessage)
    (schema : Schema) :
    ∃ r, (AI.streamCreateObject env a messages schema).1 = .ret r ∧ objectStreamShape r := by
  cases hm : a.model with
  | none =>
      exact ⟨{ success := false, error := some "ai model not set" },
        by simp [AI.streamCreateObject, hm], by simp [objectStreamShape]⟩
  | some m =>
      cases hg : env.streamObject m messages schema with
      | ok r =>
          exact ⟨{ success := true, partialObjectStream := some r.partialObjectStream },
            by simp [AI.streamCreateObject, hm, hg], by simp [objectStreamShape]⟩
      | error e =>
          exact ⟨{ success := false, error := some e },
            by simp [AI.streamCreateObject, hm, hg], by simp [objectStreamShape]⟩

/-- `classifyText` always returns normally with a well-shaped response. -/
theorem classifyText_shape (env : Env) (a : AI) (messages : List CoreMessage)
    (categories : List String) :
    ∃ r, (AI.classifyText env a messages categories).1 = .ret r ∧ objectShape r := by
  cases hm : a.model with
  | none =>
      exact ⟨{ success := false, error := some "ai model not set" },
        by simp [AI.classifyText, hm], by simp [objectShape]⟩
  | some m =>
      cases hg : env.generateObject m messages (.byEnum categories) with
      | ok r =>
          exact ⟨{ success := true, object := some r.object, usage := some r.usage },
            by simp [AI.classifyText, hm, hg], by simp [objectShape]⟩
      | error e =>
          exact ⟨{ success := false, error := some e },
            by simp [AI.classifyText, hm, hg], by simp [objectShape]⟩

/-- `chatWithImageFilePath` always returns normally with a well-shaped
response. -/
theorem chatWithImageFilePath_shape (env : Env) (a : AI) (messages : List CoreMessage)
    (imageFilePath : String) :
    ∃ r, (AI.chatWithImageFilePath env a messages imageFilePath).1 = .ret r ∧ textShape r := by
  cases hm : a.model with
  | none =>
      exact ⟨{ success := false, error := some "ai model not set" },
        by simp [AI.chatWithImageFilePath, hm], by simp [textShape]⟩
  | some m =>
      cases hf : env.readFileSync imageFilePath with
      | error e =>
          exact ⟨{ success := false, error := some e.toStringJs },
            by simp [AI.chatWithImageFilePath, hm, hf], by simp [textShape]⟩
      | ok bytes =>
          cases hg : env.generateText m
              (messages ++ [{ role := .user, content := .parts [.imagePart bytes] }]) with
          | ok r =>
              exact ⟨{ success := true, text := some r.text, reasoning := some r.reasoning,
                       usage := some r.usage },
                by simp [AI.chatWithImageFilePath, hm, hf, hg], by simp [textShape]⟩
          | error e =>
              exact ⟨{ success := false, error := some e },
                by simp [AI.chatWithImageFilePath, hm, hf, hg], by simp [textShape]⟩

/-- `chatWithImageURL` always returns normally with a well-shaped
response. -/
theorem chatWithImageURL_shape (env : Env) (a : AI) (messages : List CoreMessage)
    (imageURL : String) :
    ∃ r, (AI.chatWithImageURL env a messages imageURL).1 = .ret r ∧ textShape r := by
  cases hm : a.model with
  | none =>
      exact ⟨{ success := false, error := some "ai model not set" },
        by simp [AI.chatWithImageURL, hm], by simp [textShape]⟩
  | some m =>
      cases hu : env.newURL imageURL with
      | error e =>
          exact ⟨{ success := false, error := some e },
            by simp [AI.chatWithImageURL, hm, hu], by simp [textShape]⟩
      | ok u =>
          cases hg : env.generateText m
              (messages ++ [{ role := .user, content := .parts [.imageUrlPart u] }]) with
          | ok r =>
              exact ⟨{ success := true, text := some r.text, reasoning := some r.reasoning,
                       usage := some r.usage },
                by simp [AI.chatWithImageURL, hm, hu, hg], by simp [textShape]⟩
          | error e =>
              exact ⟨{ success := false, error := some e },
                by simp [AI.chatWithImageURL, hm, hu, hg], by simp [textShape]⟩

/-- `chatWithFile` always returns normally with a well-shaped response. -/
theorem chatWithFile_shape (env : Env) (a : AI) (messages : List CoreMessage)
    (filePath mimeType : String) :
    ∃ r, (AI.chatWithFile env a messages filePath mimeType).1 = .ret r ∧ textShape r := by
  cases hm : a.model with
  | none =>
      exact ⟨{ success := false, error := some "ai model not set" },
        by simp [AI.chatWithFile, hm], by simp [textShape]⟩
  | some m =>
      cases hf : env.readFileSync filePath with
      | error e =>
          exact ⟨{ success := false, error := some e.toStringJs },
            by simp [AI.chatWithFile, hm, hf], by simp [textShape]⟩
      | ok bytes =>
          cases hg : env.generateText m
              (messages ++ [{ role := .user, content := .parts [.filePart bytes mimeType] }]) with
          | ok r =>
              exact ⟨{ success := true, text := some r.text, reasoning := some r.reasoning,
                       usage := some r.usage },
                by simp [AI.chatWithFile, hm, hf, hg], by simp [textShape]⟩
          | error e =>
              exact ⟨{ success := false, error := some e },
                by simp [AI.chatWithFile, hm, hf, hg], by simp [textShape]⟩

/-- `extractDataFromFile` always returns normally with a well-shaped
response. -/
theorem extractDataFromFile_shape (env : Env) (a : AI) (messages : List CoreMessage)
    (schema : Schema) (filePath mimeType : String) :
    ∃ r, (AI.extractDataFromFile env a messages schema filePath mimeType).1 = .ret r
      ∧ objectShape r := by
  cases hm : a.model with
  | none =>
      exact ⟨{ success := false, error := some "ai model not set" },
        by simp [AI.extractDataFromFile, hm], by simp [objectShape]⟩
  | some m =>
      cases hf : env.readFileSync filePath with
      | error e =>
          exact ⟨{ success := false, error := some e.toStringJs },
            by simp [AI.extractDataFromFile, hm, hf], by simp [objectShape]⟩
      | ok bytes =>
          cases hg : env.generateObject m
              (messages ++ [{ role := .user, content := .parts [.filePart bytes mimeType] }])
              (.bySchema schema) with
          | ok r =>
              exact ⟨{ success := true, object := some r.object, usage := some r.usage },
                by simp [AI.extractDataFromFile, hm, hf, hg], by simp [objectShape]⟩
          | error e =>
              exact ⟨{ success := false, error := some e },
                by simp [AI.extractDataFromFile, hm, hf, hg], by simp [objectShape]⟩

/-- C3: on every execution, each of the nine facade methods returns normally
a response that satisfies exactly one of the two admissible shapes: success
with all payload keys assigned and the error key absent, or failure with the
error key assigned and all payload keys absent.  The two shapes are mutually
exclusive (they disagree on `success`), so never both payload and error,
never neither.  A payload key counts as assigned when the returned object
literal binds it; the `reasoning` key of a text response may be assigned the
provider's `undefined`. -/
theorem facade_result_shape_invariant (env : Env) (a : AI)
    (messages : List CoreMessage) (schema : Schema) (categories : List String)
    (imageFilePath imageURL filePath mimeType : String) :
    (∃ r, (AI.chat env a messages).1 = .ret r ∧ textShape r)
    ∧ (∃ r, (AI.streamChat env a messages).1 = .ret r ∧ textStreamShape r)
    ∧ (∃ r, (AI.createObject env a messages schema).1 = .ret r ∧ objectShape r)
    ∧ (∃ r, (AI.streamCreateObject env a messages schema).1 = .ret r ∧ objectStreamShape r)
    ∧ (∃ r, (AI.classifyText env a messages categories).1 = .ret r ∧ objectShape r)
    ∧ (∃ r, (AI.chatWithImageFilePath env a messages imageFilePath).1 = .ret r ∧ textShape r)
    ∧ (∃ r, (AI.chatWithImageURL env a messages imageURL).1 = .ret r ∧ textShape r)
    ∧ (∃ r, (AI.chatWithFile env a messages filePath mimeType).1 = .ret r ∧ textShape r)
    ∧ (∃ r, (AI.extractDataFromFile env a messages schema filePath mimeType).1 = .ret r
        ∧ objectShape r) :=
  ⟨chat_shape env a messages, streamChat_shape env a messages,
   createObject_shape env a messages schema, streamCreateObject_shape env a messages schema,
   classifyText_shape env a messages categories,
   chatWithImageFilePath_shape env a messages imageFilePath,
   chatWithImageURL_shape env a messages imageURL,
   chatWithFile_shape env a messages filePath mimeType,
   extractDataFromFile_shape env a messages schema filePath mimeType⟩

/-- C4: for each of the nine facade methods, when the underlying provider
call completes successfully, the method returns normally
`{success := true, ...}` with every declared payload key of its result type
assigned the corresponding field of the provider's output and the error key
absent. -/
theorem facade_success_reshaping (env : Env) (a : AI) (m : LanguageModel)
    (messages : List CoreMessage) (schema : Schema) (categories : List String)
    (imageFilePath imageURL filePath mimeType : String)
    (ibytes fbytes : List Nat) (u : URLObj)
    (r1 r6 r7 r8 : GenTextResult) (r2 : StreamTextResult)
    (r3 r5 r9 : GenObjectResult) (r4 : StreamObjectResult)
    (hm : a.model = some m)
    (h1 : env.generateText m messages = .ok r1)
    (h2 : env.streamText m messages = .ok r2)
    (h3 : env.generateObject m messages (.bySchema schema) = .ok r3)
    (h4 : env.streamObject m messages schema = .ok r4)
    (h5 : env.generateObject m messages (.byEnum categories) = .ok r5)
    (h6i : env.readFileSync imageFilePath = .ok ibytes)
    (h6 : env.generateText m (messages ++ [{ role := .user, content := .parts [.imagePart ibytes] }]) = .ok r6)
    (h7u : env.newURL imageURL = .ok u)
    (h7 : env.generateText m (messages ++ [{ role := .user, content := .parts [.imageUrlPart u] }]) = .ok r7)
    (h8f : env.readFileSync filePath = .ok fbytes)
    (h8 : env.generateText m (messages ++ [{ role := .user, content := .parts [.filePart fbytes mimeType] }]) = .ok r8)
    (h9 : env.generateObject m (messages ++ [{ role := .user, content := .parts [.filePart fbytes mimeType] }]) (.bySchema schema) = .ok r9) :
    (AI.chat env a messages).1 =
      .ret { success := true, text := some r1.text, reasoning := some r1.reasoning,
             usage := some r1.usage }
    ∧ (AI.streamChat env a messages).1 =
      .ret { success := true, textStream := some r2.textStream, reasoning := some r2.reasoning }
    ∧ (AI.createObject env a messages schema).1 =
      .ret { success := true, object := some r3.object, usage := some r3.usage }
    ∧ (AI.streamCreateObject env a messages schema).1 =
      .ret { success := true, partialObjectStream := some r4.partialObjectStream }
    ∧ (AI.classifyText env a messages categories).1 =
      .ret { success := true, object := some r5.object, usage := some r5.usage }
    ∧ (AI.chatWithImageFilePath env a messages imageFilePath).1 =
      .ret { success := true, text := some r6.text, reasoning := some r6.reasoning,
             usage := some r6.usage }
    ∧ (AI.chatWithImageURL env a messages imageURL).1 =
      .ret { success := true, text := some r7.text, reasoning := some r7.reasoning,
             usage := some r7.usage }
    ∧ (AI.chatWithFile env a messages filePath mimeType).1 =
      .ret { success := true, text := some r8.text, reasoning := some r8.reasoning,
             usage := some r8.usage }
    ∧ (AI.extractDataFromFile env a messages schema filePath mimeType).1 =
      .ret { success := true, object := some r9.object, usage := some r9.usage } := by
  refine ⟨?_, ?_, ?_, ?_, ?_, ?_, ?_, ?_, ?_⟩ <;>
    simp [AI.chat, AI.streamChat, AI.createObject, AI.streamCreateObject,
      AI.classifyText, AI.chatWithImageFilePath, AI.chatWithImageURL,
      AI.chatWithFile, AI.extractDataFromFile, hm, h1, h2, h3, h4, h5,
      h6i, h6, h7u, h7, h8f, h8, h9]

/-- C4 witness: the all-success environment `okEnv` exercises the chat
conjunct of the success-reshaping theorem. -/
theorem facade_success_reshaping_witness :
    (AI.chat okEnv groqAI sampleMessages).1 =
      .ret { success := true, text := some "pong", reasoning := some (some "thought"),
             usage := some okUsage } :=
  (facade_success_reshaping okEnv groqAI groqModel sampleMessages
    ⟨0⟩ ["a"] "img.png" "https://x" "doc.pdf" "application/pdf"
    [104, 105] [104, 105] ⟨"https://x"⟩
    { text := "pong", reasoning := some "thought", usage := okUsage }
    { text := "pong", reasoning := some "thought", usage := okUsage }
    { text := "pong", reasoning := some "thought", usage := okUsage }
    { text := "pong", reasoning := some "thought", usage := okUsage }
    { textStream := ⟨1⟩, reasoning := ⟨2⟩ }
    { object := .rawVal 7, usage := okUsage }
    { object := .strVal "a", usage := okUsage }
    { object := .rawVal 7, usage := okUsage }
    { partialObjectStream := ⟨3⟩ }
    rfl rfl rfl rfl rfl rfl rfl rfl rfl rfl rfl rfl rfl).1

/-- `String(err)` of a Node `fs` fault is never the empty string: it always
starts with the error's name "Error". -/
theorem FsError.toStringJs_ne_empty (e : FsError) : e.toStringJs ≠ "" := by
  unfold FsError.toStringJs
  split
  · decide
  · intro h
    have h2 := congrArg String.data h
    simp [String.data_append] at h2

/-- C5: for the three file-attachment methods, when reading the given path
throws, the method returns normally `{success := false, error := String(err)}`
with a non-empty error string, and the collaborator trace holds only the
failed file read — the inference provider is never invoked. -/
theorem attachment_read_failure_skips_provider (env : Env) (a : AI)
    (m : LanguageModel) (messages : List CoreMessage) (schema : Schema)
    (imageFilePath filePath mimeType : String) (e1 e2 : FsError)
    (hm : a.model = some m)
    (h1 : env.readFileSync imageFilePath = .error e1)
    (h2 : env.readFileSync filePath = .error e2) :
    AI.chatWithImageFilePath env a messages imageFilePath =
      (.ret { success := false, error := some e1.toStringJs }, [.fileReadCall imageFilePath])
    ∧ e1.toStringJs ≠ ""
    ∧ (∀ ev ∈ (AI.chatWithImageFilePath env a messages imageFilePath).2,
        ev.isProviderCall = false)
    ∧ AI.chatWithFile env a messages filePath mimeType =
      (.ret { success := false, error := some e2.toStringJs }, [.fileReadCall filePath])
    ∧ e2.toStringJs ≠ ""
    ∧ (∀ ev ∈ (AI.chatWithFile env a messages filePath mimeType).2,
        ev.isProviderCall = false)
    ∧ AI.extractDataFromFile env a messages schema filePath mimeType =
      (.ret { success := false, error := some e2.toStringJs }, [.fileReadCall filePath])
    ∧ (∀ ev ∈ (AI.extractDataFromFile env a messages schema filePath mimeType).2,
        ev.isProviderCall = false) := by
  refine ⟨?_, FsError.toStringJs_ne_empty e1, ?_, ?_, FsError.toStringJs_ne_empty e2,
    ?_, ?_, ?_⟩ <;>
    simp [AI.chatWithImageFilePath, AI.chatWithFile, AI.extractDataFromFile,
      hm, h1, h2, Event.isProviderCall]

/-- C5 witness: the failing-I/O environment `ioFailEnv` exercises the
image-file conjunct of the read-failure theorem. -/
theorem attachment_read_failure_skips_provider_witness :
    AI.chatWithImageFilePath ioFailEnv groqAI sampleMessages "missing.png" =
      (.ret { success := false,
              error := some "Error: ENOENT: no such file or directory" },
       [.fileReadCall "missing.png"]) :=
  (attachment_read_failure_skips_provider ioFailEnv groqAI groqModel sampleMessages
    ⟨0⟩ "missing.png" "missing.pdf" "application/pdf"
    ⟨"ENOENT: no such file or directory"⟩ ⟨"ENOENT: no such file or directory"⟩
    rfl rfl rfl).1

/-- C6: each attachment method forwards to the provider exactly the caller's
message list, unchanged and in order, followed by one appended trailing
message of role `user` whose content is a single part describing the
attachment (image bytes, image URL, or file bytes plus MIME type).  In this
pure embedding the caller's message values cannot be mutated; the trace
shows the forwarded list is `messages ++ [trailing]` verbatim, with the
caller's list as its literal prefix. -/
theorem attachment_methods_append_single_trailing_message (env : Env) (a : AI)
    (m : LanguageModel) (messages : List CoreMessage) (schema : Schema)
    (imageFilePath imageURL filePath mimeType : String)
    (ibytes fbytes : List Nat) (u : URLObj)
    (hm : a.model = some m)
    (hread : env.readFileSync imageFilePath = .ok ibytes)
    (hurl : env.newURL imageURL = .ok u)
    (hfile : env.readFileSync filePath = .ok fbytes) :
    (AI.chatWithImageFilePath env a messages imageFilePath).2 =
      [.fileReadCall imageFilePath,
       .genTextCall m (messages ++ [{ role := .user, content := .parts [.imagePart ibytes] }])]
    ∧ (AI.chatWithImageURL env a messages imageURL).2 =
      [.newURLCall imageURL,
       .genTextCall m (messages ++ [{ role := .user, content := .parts [.imageUrlPart u] }])]
    ∧ (AI.chatWithFile env a messages filePath mimeType).2 =
      [.fileReadCall filePath,
       .genTextCall m (messages ++ [{ role := .user, content := .parts [.filePart fbytes mimeType] }])]
    ∧ (AI.extractDataFromFile env a messages schema filePath mimeType).2 =
      [.fileReadCall filePath,
       .genObjectCall m (messages ++ [{ role := .user, content := .parts [.filePart fbytes mimeType] }]) (.bySchema schema)] := by
  refine ⟨?_, ?_, ?_, ?_⟩
  · cases hg : env.generateText m
        (messages ++ [{ role := .user, content := .parts [.imagePart ibytes] }]) <;>
      simp [AI.chatWithImageFilePath, hm, hread, hg]
  · cases hg : env.generateText m
        (messages ++ [{ role := .user, content := .parts [.imageUrlPart u] }]) <;>
      simp [AI.chatWithImageURL, hm, hurl, hg]
  · cases hg : env.generateText m
        (messages ++ [{ role := .user, content := .parts [.filePart fbytes mimeType] }]) <;>
      simp [AI.chatWithFile, hm, hfile, hg]
  · cases hg : env.generateObject m
        (messages ++ [{ role := .user, content := .parts [.filePart fbytes mimeType] }])
        (.bySchema schema) <;>
      simp [AI.extractDataFromFile, hm, hfile, hg]

/-- C6 witness: the image-file conjunct at a concrete environment. -/
theorem attachment_methods_append_single_trailing_message_witness :
    (AI.chatWithImageFilePath okEnv groqAI sampleMessages "img.png").2 =
      [.fileReadCall "img.png",
       .genTextCall groqModel
         (sampleMessages ++ [{ role := .user, content := .parts [.imagePart [104, 105]] }])] :=
  (attachment_methods_append_single_trailing_message okEnv groqAI groqModel
    sampleMessages ⟨0⟩ "img.png" "https://x" "doc.pdf" "application/pdf"
    [104, 105] [104, 105] ⟨"https://x"⟩ rfl rfl rfl rfl).1

/-- The deterministic transform a fake echoing provider applies to the
conversation: the first message's text followed by "!". -/
def echoTransform (msgs : List CoreMessage) : String :=
  match msgs with
  | { role := _, content := .str s } :: _ => s ++ "!"
  | _ => "?"

/-- A fake provider that echoes a deterministic transform of its input. -/
def echoEnv : Env :=
  { okEnv with
    generateText := fun _ msgs =>
      .ok { text := echoTransform msgs, reasoning := none, usage := okUsage } }

/-- C7: `chat` forwards the caller's message sequence to the provider
verbatim (the single provider call in the trace carries exactly `messages`)
and returns exactly the provider's text; composed with any provider that
applies a deterministic transform to its input, chat's text equals that
transform of the caller's messages. -/
theorem chat_pass_through (env : Env) (a : AI) (m : LanguageModel)
    (messages : List CoreMessage) (r : GenTextResult)
    (hm : a.model = some m) (h : env.generateText m messages = .ok r) :
    AI.chat env a messages =
      (.ret { success := true, text := some r.text, reasoning := some r.reasoning,
              usage := some r.usage }, [.genTextCall m messages])
    ∧ ∀ (transform : List CoreMessage → String) (env2 : Env) (u : LanguageModelUsage),
        (∀ mdl msgs, env2.generateText mdl msgs =
          .ok { text := transform msgs, reasoning := none, usage := u }) →
        (AI.chat env2 a messages).1 =
          .ret { success := true, text := some (transform messages),
                 reasoning := some none, usage := some u } := by
  constructor
  · simp [AI.chat, hm, h]
  · intro transform env2 u henv
    simp [AI.chat, hm, henv]

/-- C7 witness: against the echoing fake provider, chat on "hi" returns
text "hi!" — the transform of the input. -/
theorem chat_pass_through_witness :
    (AI.chat echoEnv groqAI sampleMessages).1 =
      .ret { success := true, text := some (echoTransform sampleMessages),
             reasoning := some none, usage := some okUsage }
    ∧ echoTransform sampleMessages = "hi!" :=
  ⟨(chat_pass_through echoEnv groqAI groqModel sampleMessages
      { text := echoTransform sampleMessages, reasoning := none, usage := okUsage }
      rfl rfl).2 echoTransform echoEnv okUsage (fun _ _ => rfl),
   by decide⟩

/-- C8: `classifyText` delegates to the provider with an enumerated-output
constraint over exactly the caller's category strings, returns the
provider's value unaltered, and hence whenever the provider's value is a
member of the category set, so is the `object` field of the result. -/
theorem classifyText_enum_delegation (env : Env) (a : AI) (m : LanguageModel)
    (messages : List CoreMessage) (categories : List String)
    (hm : a.model = some m) :
    (AI.classifyText env a messages categories).2 =
      [.genObjectCall m messages (.byEnum categories)]
    ∧ (∀ r, env.generateObject m messages (.byEnum categories) = .ok r →
        (AI.classifyText env a messages categories).1 =
          .ret { success := true, object := some r.object, usage := some r.usage })
    ∧ (∀ r c, env.generateObject m messages (.byEnum categories) = .ok r →
        r.object = .strVal c → c ∈ categories →
        (AI.classifyText env a messages categories).1 =
          .ret { success := true, object := some (.strVal c), usage := some r.usage }
        ∧ c ∈ categories) := by
  refine ⟨?_, ?_, ?_⟩
  · cases hg : env.generateObject m messages (.byEnum categories) <;>
      simp [AI.classifyText, hm, hg]
  · intro r hg
    simp [AI.classifyText, hm, hg]
  · intro r c hg hobj hc
    exact ⟨by simp [AI.classifyText, hm, hg, hobj], hc⟩

/-- C8 witness: with categories ["a","b","c"] and a provider constrained to
return one of them, the classification object is that member. -/
theorem classifyText_enum_delegation_witness :
    (AI.classifyText okEnv groqAI sampleMessages ["a", "b", "c"]).1 =
      .ret { success := true, object := some (.strVal "a"), usage := some okUsage }
    ∧ "a" ∈ ["a", "b", "c"] :=
  (classifyText_enum_delegation okEnv groqAI groqModel sampleMessages
    ["a", "b", "c"] rfl).2.2 ⟨.strVal "a", okUsage⟩ "a" rfl rfl (by decide)

/-- C9: when `new URL(imageURL)` throws (the string is not parseable as a
URL), `chatWithImageURL` on a configured facade returns normally
`{success := false, error := String(err)}` and the trace holds only the URL
construction — the provider is never invoked, because the URL is built
inside the guarded region before the provider call. -/
theorem chatWithImageURL_invalid_url (env : Env) (a : AI) (m : LanguageModel)
    (messages : List CoreMessage) (imageURL : String) (e : String)
    (hm : a.model = some m) (h : env.newURL imageURL = .error e) :
    AI.chatWithImageURL env a messages imageURL =
      (.ret { success := false, error := some e }, [.newURLCall imageURL])
    ∧ (∀ ev ∈ (AI.chatWithImageURL env a messages imageURL).2,
        ev.isProviderCall = false) := by
  constructor <;> simp [AI.chatWithImageURL, hm, h, Event.isProviderCall]

/-- C9 witness: a concrete unparseable URL in the failing-I/O
environment. -/
theorem chatWithImageURL_invalid_url_witness :
    AI.chatWithImageURL ioFailEnv groqAI sampleMessages "not a url" =
      (.ret { success := false, error := some "TypeError: Invalid URL" },
       [.newURLCall "not a url"]) :=
  (chatWithImageURL_invalid_url ioFailEnv groqAI groqModel sampleMessages
    "not a url" "TypeError: Invalid URL" rfl rfl).1

/-- A provider whose successful chat output is the empty string with no
reasoning. -/
def emptyOkEnv : Env :=
  { okEnv with
    generateText := fun _ _ => .ok { text := "", reasoning := none, usage := okUsage } }

/-- C10: for `chat` and `createObject`, success is determined solely by
whether a model is configured and whether the SDK call throws: unset model
gives failure; a non-throwing provider call gives `success := true` whatever
the payload — in particular when the text is empty and the reasoning value
is `undefined` — and a throwing call gives `success := false`.  The facade
never inspects payload content. -/
theorem success_independent_of_payload_content (env : Env) (a : AI)
    (m : LanguageModel) (messages : List CoreMessage) (schema : Schema)
    (u : LanguageModelUsage) (r : GenTextResult) (ro : GenObjectResult)
    (f g : String) :
    (a.model = none → (AI.chat env a messages).1 =
      .ret { success := false, error := some "ai model not set" })
    ∧ (a.model = some m → env.generateText m messages = .ok r →
        (AI.chat env a messages).1 =
          .ret { success := true, text := some r.text, reasoning := some r.reasoning,
                 usage := some r.usage })
    ∧ (a.model = some m →
        env.generateText m messages = .ok { text := "", reasoning := none, usage := u } →
        (AI.chat env a messages).1 =
          .ret { success := true, text := some "", reasoning := some none,
                 usage := some u })
    ∧ (a.model = some m → env.generateText m messages = .error f →
        (AI.chat env a messages).1 = .ret { success := false, error := some f })
    ∧ (a.model = none → (AI.createObject env a messages schema).1 =
      .ret { success := false, error := some "ai model not set" })
    ∧ (a.model = some m → env.generateObject m messages (.bySchema schema) = .ok ro →
        (AI.createObject env a messages schema).1 =
          .ret { success := true, object := some ro.object, usage := some ro.usage })
    ∧ (a.model = some m → env.generateObject m messages (.bySchema schema) = .error g →
        (AI.createObject env a messages schema).1 =
          .ret { success := false, error := some g }) := by
  refine ⟨?_, ?_, ?_, ?_, ?_, ?_, ?_⟩
  · intro hm; simp [AI.chat, hm]
  · intro hm hg; simp [AI.chat, hm, hg]
  · intro hm hg; simp [AI.chat, hm, hg]
  · intro hm hg; simp [AI.chat, hm, hg]
  · intro hm; simp [AI.createObject, hm]
  · intro hm hg; simp [AI.createObject, hm, hg]
  · intro hm hg; simp [AI.createObject, hm, hg]

/-- C10 witness: a provider success carrying empty text and no reasoning
still yields `success := true`. -/
theorem success_independent_of_payload_content_witness :
    (AI.chat emptyOkEnv groqAI sampleMessages).1 =
      .ret { success := true, text := some "", reasoning := some none,
             usage := some okUsage } :=
  (success_independent_of_payload_content emptyOkEnv groqAI groqModel
    sampleMessages ⟨0⟩ okUsage ⟨"", none, okUsage⟩ ⟨.rawVal 7, okUsage⟩
    "f" "g").2.2.1 rfl rfl

end AICore
